import Mathlib

/-!
Verification of the binding-resolution core of the contanki add-on
(controller support for a flashcard application).

The embedding below follows the source files:
* `contanki/config.py`  — the configuration dialog; in particular
  `ControlsPage.update_inheritance`, `ControlsPage.update_binding`,
  `ContankiConfig.update_binding` and `ControlsPage.ControlsTab.__init__`.
* `contanki/CONSTS.py`  — the static controller registry `BUTTON_NAMES`.
* `contanki/actions.py` — the `button_actions` dispatch table (key set)
  and the per-state action lists `state_actions`.

Parts of the repository that the dialog calls into but whose source is not
part of this snapshot (the `Profile` class, the registry lookup, binding
validation) are modelled from the specification; each such definition says
so in its doc comment.

In this snapshot the bindings table is keyed by `(state, button-index)`
pairs (see `profile.bindings[(state, index)]` in `config.py`); there is no
separate modifier component in the key, so the resolution functions below
take a state and a button index.
-/

namespace Contanki

/-- Application states, from the `states` dictionary in `config.py`
(`all`, `deckBrowser`, `overview`, `review`, `question`, `answer`,
`dialog`). -/
inductive State where
  | all
  | deckBrowser
  | overview
  | review
  | question
  | answer
  | dialog
deriving DecidableEq

/-- A profile's bindings table: a finite map from `(state, button-index)`
to an action name, modelled as an association list.  The empty string
means "no action / fall through to inheritance". -/
abbrev Bindings := List ((State × Nat) × String)

/-- Dictionary lookup `bindings[(state, index)]`: `none` models a Python
`KeyError`. -/
def lookupBinding : Bindings → State → Nat → Option String
  | [], _, _ => none
  | (k, a) :: rest, s, i =>
    if k.1 = s ∧ k.2 = i then some a else lookupBinding rest s i

/-- The inherited display text computed by the loop body of
`ControlsPage.update_inheritance` (config.py) for a combo box of a
non-"all" state:

    inherited = ""
    if action := all_bindings[i]:
        inherited = action + " (inherited)"
    if state in ("question", "answer") and (action := review_bindings[i]):
        inherited = action + " (inherited)"

Both dictionary accesses are direct indexing; `none` models the
`KeyError` branch.  `review_bindings[i]` is only evaluated when the state
is "question" or "answer" (Python `and` short-circuits). -/
def inheritedText (b : Bindings) (s : State) (i : Nat) : Option String :=
  match lookupBinding b State.all i with
  | none => none
  | some a =>
    let afterAll := if a ≠ "" then a ++ " (inherited)" else ""
    if s = State.question ∨ s = State.answer then
      match lookupBinding b State.review i with
      | none => none
      | some r => some (if r ≠ "" then r ++ " (inherited)" else afterAll)
    else some afterAll

/-- The effective action for `(state, index)` as the dialog presents it:
the combo box's current text is the explicit binding
(`combo.setCurrentText(parent.profile.bindings[(state, index)])` in
`ControlsTab.__init__`), and when that is empty the selection falls back
to item 0, whose text `update_inheritance` sets to the inherited value —
first from the "all" layer, then (for "question"/"answer") from the
"review" layer, the last truthy assignment winning.  Returns the action
name together with an `inherited` flag; `none` models a `KeyError` on one
of the dictionary accesses. -/
def getEffectiveAction (b : Bindings) (s : State) (i : Nat) :
    Option (String × Bool) :=
  match lookupBinding b s i with
  | none => none
  | some own =>
    if own ≠ "" then some (own, false)
    else if s = State.all then some ("", false)
    else
      match lookupBinding b State.all i with
      | none => none
      | some a =>
        let afterAll := if a ≠ "" then (a, true) else ("", false)
        if s = State.question ∨ s = State.answer then
          match lookupBinding b State.review i with
          | none => none
          | some r => some (if r ≠ "" then (r, true) else afterAll)
        else some afterAll

/-- `matchHere s pat` holds when `pat` is an initial segment of `s`
(character lists).  Used to embed Python's substring operator. -/
def matchHere : List Char → List Char → Bool
  | _, [] => true
  | [], _ :: _ => false
  | c :: s, p :: ps => (c == p) && matchHere s ps

/-- `hasSub s pat`: `pat` occurs as a contiguous substring of `s`
(character lists). -/
def hasSub : List Char → List Char → Bool
  | [], pat => matchHere [] pat
  | c :: rest, pat => matchHere (c :: rest) pat || hasSub rest pat

/-- Python's `pat in s` on strings: `pat` is a contiguous substring of
`s`. -/
def strContainsSub (s pat : String) : Bool :=
  hasSub s.data pat.data

/-- A controller descriptor: the name and the button table (index to
display name) of one entry of `BUTTON_NAMES` in `CONSTS.py`. -/
structure Controller where
  name : String
  buttons : List (Nat × String)
deriving DecidableEq

/-- The button indices of a controller (the keys of its button table). -/
def buttonIndices (c : Controller) : List Nat :=
  c.buttons.map Prod.fst

/-- A profile, as the configuration dialog uses it: the resolved
controller descriptor, the designated modifier buttons `mods`, and the
bindings table.  The `Profile` class itself is outside this snapshot;
the fields are the ones `config.py` reads (`profile.controller.buttons`,
`profile.bindings`) plus `mods` from the specification's data model. -/
structure Profile where
  name : String
  controller : Controller
  mods : List Nat
  bindings : Bindings
deriving DecidableEq

/-- Dictionary assignment `bindings[(state, index)] = action`: replace
any existing entry for the key, keeping the map functional. -/
def insertBinding (bs : Bindings) (s : State) (i : Nat) (a : String) :
    Bindings :=
  ((s, i), a) :: bs.filter (fun q => !(decide (q.1.1 = s ∧ q.1.2 = i)))

/-- Modelled from the spec: `Profile.update_binding` is not part of this
snapshot (only its caller `ContankiConfig.update_binding` is); per §4.2
the underlying operation "mutates `profile.bindings` in place", storing
the action under the `(state, button)` key. -/
def Profile.update_binding (p : Profile) (s : State) (i : Nat)
    (a : String) : Profile :=
  { p with bindings := insertBinding p.bindings s i a }

/-- `ContankiConfig.update_binding` (config.py): forwards the edit to the
profile.  (The subsequent `update_inheritance` call for the "all" and
"review" states refreshes widget display text only and does not change
the profile.) -/
def ContankiConfig.update_binding (p : Profile) (s : State) (i : Nat)
    (a : String) : Profile :=
  Profile.update_binding p s i a

/-- `ControlsPage.update_binding` (config.py):

    if "inherit" not in action:
        self._update_binding(state, button, action)

The edit is forwarded only when `"inherit"` is not a substring of the
action; otherwise nothing happens. -/
def ControlsPage.update_binding (p : Profile) (s : State) (i : Nat)
    (a : String) : Profile :=
  if !(strContainsSub a "inherit") then
    ContankiConfig.update_binding p s i a
  else p

/-- The error raised on an invalid binding request (spec §7). -/
inductive BindingErr where
  | invalidBinding
deriving DecidableEq

/-- Modelled from the spec: `setBinding` is not part of this snapshot;
per §4.2/§7 it "validates `button not in profile.mods`" and rejects an
out-of-range button index with `InvalidBindingError` "before mutating
state", and otherwise stores the action in `profile.bindings`.  An
`Except.error` result produces no updated profile, so the bindings are
unchanged on rejection. -/
def setBinding (p : Profile) (s : State) (i : Nat) (a : String) :
    Except BindingErr Profile :=
  if i ∈ p.mods then Except.error BindingErr.invalidBinding
  else if i ∉ buttonIndices p.controller then
    Except.error BindingErr.invalidBinding
  else Except.ok (Profile.update_binding p s i a)

/-- Modelled from the spec: `listBindableButtons(controller, mods)` is
not part of this snapshot; per §4.2 it returns "all controller button
indices excluding those in `mods`", in order. -/
def listBindableButtons (c : Controller) (mods : List Nat) : List Nat :=
  (buttonIndices c).filter (fun i => !(decide (i ∈ mods)))

/-- The "DualShock 3" entry of `BUTTON_NAMES` (CONSTS.py). -/
def dualShock3 : Controller :=
  ⟨"DualShock 3",
   [(0, "Cross"), (1, "Circle"), (2, "Square"), (3, "Triangle"),
    (4, "Left Shoulder"), (5, "Right Shoulder"), (6, "Left Trigger"),
    (7, "Right Trigger"), (8, "Select"), (9, "Start"), (10, "Left Stick"),
    (11, "Right Stick"), (12, "D-Pad Up"), (13, "D-Pad Down"),
    (14, "D-Pad Left"), (15, "D-Pad Right")]⟩

/-- The "DualShock 4" entry of `BUTTON_NAMES` (CONSTS.py). -/
def dualShock4 : Controller :=
  ⟨"DualShock 4",
   [(0, "Cross"), (1, "Circle"), (2, "Square"), (3, "Triangle"),
    (4, "Left Shoulder"), (5, "Right Shoulder"), (6, "Left Trigger"),
    (7, "Right Trigger"), (8, "Share"), (9, "Options"), (10, "Left Stick"),
    (11, "Right Stick"), (12, "D-Pad Up"), (13, "D-Pad Down"),
    (14, "D-Pad Left"), (15, "D-Pad Right"), (16, "PS"), (17, "Pad")]⟩

/-- The "DualSense" entry of `BUTTON_NAMES` (CONSTS.py). -/
def dualSense : Controller :=
  ⟨"DualSense",
   [(0, "Cross"), (1, "Circle"), (2, "Square"), (3, "Triangle"),
    (4, "Left Shoulder"), (5, "Right Shoulder"), (6, "Left Trigger"),
    (7, "Right Trigger"), (8, "Share"), (9, "Options"), (10, "Left Stick"),
    (11, "Right Stick"), (12, "D-Pad Up"), (13, "D-Pad Down"),
    (14, "D-Pad Left"), (15, "D-Pad Right"), (16, "PS"), (17, "Pad")]⟩

/-- The "Xbox One" entry of `BUTTON_NAMES` (CONSTS.py). -/
def xboxOne : Controller :=
  ⟨"Xbox One",
   [(0, "A"), (1, "B"), (2, "X"), (3, "Y"), (4, "Left Shoulder"),
    (5, "Right Shoulder"), (6, "Left Trigger"), (7, "Right Trigger"),
    (8, "View"), (9, "Menu"), (10, "Left Stick"), (11, "Right Stick"),
    (12, "D-Pad Up"), (13, "D-Pad Down"), (14, "D-Pad Left"),
    (15, "D-Pad Right"), (16, "Xbox")]⟩

/-- The "Xbox Series" entry of `BUTTON_NAMES` (CONSTS.py). -/
def xboxSeries : Controller :=
  ⟨"Xbox Series",
   [(0, "A"), (1, "B"), (2, "X"), (3, "Y"), (4, "Left Shoulder"),
    (5, "Right Shoulder"), (6, "Left Trigger"), (7, "Right Trigger"),
    (8, "View"), (9, "Menu"), (10, "Left Stick"), (11, "Right Stick"),
    (12, "D-Pad Up"), (13, "D-Pad Down"), (14, "D-Pad Left"),
    (15, "D-Pad Right"), (16, "Xbox"), (17, "Share")]⟩

/-- The "Xbox 360" entry of `BUTTON_NAMES` (CONSTS.py). -/
def xbox360 : Controller :=
  ⟨"Xbox 360",
   [(0, "A"), (1, "B"), (2, "X"), (3, "Y"), (4, "Left Shoulder"),
    (5, "Right Shoulder"), (6, "Left Trigger"), (7, "Right Trigger"),
    (8, "Back"), (9, "Start"), (10, "Left Stick"), (11, "Right Stick"),
    (12, "D-Pad Up"), (13, "D-Pad Down"), (14, "D-Pad Left"),
    (15, "D-Pad Right"), (16, "Xbox")]⟩

/-- The "Switch Pro" entry of `BUTTON_NAMES` (CONSTS.py). -/
def switchPro : Controller :=
  ⟨"Switch Pro",
   [(0, "A"), (1, "B"), (2, "X"), (3, "Y"), (4, "Left Shoulder"),
    (5, "Right Shoulder"), (6, "Left Trigger"), (7, "Right Trigger"),
    (8, "Square"), (9, "Home"), (10, "Left Stick"), (11, "Right Stick"),
    (12, "D-Pad Up"), (13, "D-Pad Down"), (14, "D-Pad Left"),
    (15, "D-Pad Right"), (16, "Minus"), (17, "Plus")]⟩

/-- The "Steam Controller" entry of `BUTTON_NAMES` (CONSTS.py). -/
def steamController : Controller :=
  ⟨"Steam Controller",
   [(0, "A"), (1, "B"), (2, "X"), (3, "Y"), (4, "Left Shoulder"),
    (5, "Right Shoulder"), (6, "Left Trigger"), (7, "Right Trigger"),
    (8, "Back"), (9, "Start"), (10, "Stick"), (11, "Right Track"),
    (12, "Left Track Up"), (13, "Left Track Down"), (14, "Left Track Left"),
    (15, "Left Track Right"), (16, "Left Grip"), (17, "Right Grip"),
    (18, "Right Track Up"), (19, "Right Track Down"),
    (20, "Right Track Left"), (21, "Right Track Right"), (22, "Steam")]⟩

/-- The "Wii Remote" entry of `BUTTON_NAMES` (CONSTS.py). -/
def wiiRemote : Controller :=
  ⟨"Wii Remote",
   [(0, "1"), (1, "2"), (2, "A"), (3, "B"), (4, "Plus"), (5, "Minus"),
    (6, "Home"), (7, "Z")]⟩

/-- The "Joy-Con Right" entry of `BUTTON_NAMES` (CONSTS.py). -/
def joyConRight : Controller :=
  ⟨"Joy-Con Right",
   [(0, "A"), (1, "X"), (2, "B"), (3, "Y"), (4, "Left Shoulder"),
    (5, "Right Shoulder"), (6, "Plus"), (7, "Right Stick"), (8, "Home"),
    (9, "D-Pad Up"), (10, "D-Pad Down"), (11, "D-Pad Left"),
    (12, "D-Pad Right")]⟩

/-- The "Joy-Con Left" entry of `BUTTON_NAMES` (CONSTS.py). -/
def joyConLeft : Controller :=
  ⟨"Joy-Con Left",
   [(0, "Left"), (1, "Down"), (2, "Up"), (3, "Right"), (4, "Left Shoulder"),
    (5, "Right Shoulder"), (6, "Minus"), (7, "Left Stick"), (8, "Capture"),
    (9, "D-Pad Up"), (10, "D-Pad Down"), (11, "D-Pad Left"),
    (12, "D-Pad Right")]⟩

/-- The "Super Nintendo" entry of `BUTTON_NAMES` (CONSTS.py). -/
def superNintendo : Controller :=
  ⟨"Super Nintendo",
   [(0, "B"), (1, "X"), (2, "A"), (3, "Y"), (4, "Left Shoulder"),
    (5, "Right Shoulder"), (6, "Start"), (7, "Select"), (8, "D-Pad Up"),
    (9, "D-Pad Down"), (10, "D-Pad Left"), (11, "D-Pad Right")]⟩

/-- The fixed controller registry `BUTTON_NAMES` (CONSTS.py), as an
association list from controller name to descriptor.  (The commented-out
"Wii Nunchuck" entry of the source is not part of the registry.) -/
def controllers : List (String × Controller) :=
  [("DualShock 3", dualShock3),
   ("DualShock 4", dualShock4),
   ("DualSense", dualSense),
   ("Xbox One", xboxOne),
   ("Xbox Series", xboxSeries),
   ("Xbox 360", xbox360),
   ("Switch Pro", switchPro),
   ("Steam Controller", steamController),
   ("Wii Remote", wiiRemote),
   ("Joy-Con Right", joyConRight),
   ("Joy-Con Left", joyConLeft),
   ("Super Nintendo", superNintendo)]

/-- The error raised when a controller name is not in the registry
(spec §7). -/
inductive RegErr where
  | unknownController
deriving DecidableEq

/-- Modelled from the spec: `describe(controllerName)` is not part of
this snapshot (only the registry data in `CONSTS.py` is); per §4.1 it is
a static lookup from controller name to descriptor that "fails with
`UnknownControllerError` if the name is not in the fixed registry", with
no mutation and no side effects. -/
def describe (controllerName : String) : Except RegErr Controller :=
  match controllers.find? (fun p => decide (p.1 = controllerName)) with
  | some p => Except.ok p.2
  | none => Except.error RegErr.unknownController

/-- The key set of the `button_actions` dispatch table (actions.py,
lines 47-132).  The values are host-application callables and are
outside this core; only the keys matter for the claims.  Keys whose
entries are commented out in the source (such as "Focus Main Window")
are **not** keys of the table. -/
def button_actions : List String :=
  ["", "mod", "Sync", "Overview", "Browser", "Statistics", "Main Screen",
   "Review", "Undo", "Redo", "Back", "Forward", "Enter", "Fullscreen",
   "Volume Up", "Volume Down", "Add", "Preferences", "Quit", "Hide Cursor",
   "Click", "Secondary Click", "Select Next", "Select Previous", "Select",
   "Switch Window", "Escape", "Up", "Down", "Up by 10", "Down by 10",
   "Scroll Up", "Scroll Down", "Options", "Next Deck", "Previous Deck",
   "Next Due Deck", "Previous Due Deck", "Collapse/Expand", "Filter",
   "Check Database", "Check Media", "Empty Cards", "Manage Note Types",
   "Study Deck", "Custom Study", "Rebuild", "Empty", "Again", "Hard",
   "Good", "Easy", "Suspend Card", "Suspend Note", "Bury Card", "Bury Note",
   "Flag", "Mark Note", "Delete Note", "Record Voice", "Replay Voice",
   "Card Info", "Previous Card Info", "Pause Audio", "Audio +5s",
   "Audio -5s", "Replay Audio", "Edit Note", "Flip Card", "Set Due Date"]

/-- `common_actions` (actions.py). -/
def common_actions : List String :=
  ["Add", "Back", "Browser", "Enter", "Forward", "Fullscreen",
   "Hide Cursor", "Main Screen", "Overview", "Preferences", "Quit", "Redo",
   "Review", "Statistics", "Sync", "Undo", "Volume Down", "Volume Up",
   "Click", "Secondary Click", "Options", "Scroll Down", "Scroll Up",
   "Select Next", "Select Previous", "Select"]

/-- `review_actions` (actions.py). -/
def review_actions : List String :=
  ["Again", "Audio -5s", "Audio +5s", "Bury Card", "Bury Note", "Card Info",
   "Delete Note", "Easy", "Edit Note", "Flag", "Flip Card", "Good", "Hard",
   "Mark Note", "Pause Audio", "Record Voice", "Previous Card Info",
   "Replay Audio", "Replay Voice", "Set Due Date", "Suspend Card",
   "Suspend Note"]

/-- The per-state action lists `state_actions` (actions.py, lines
173-250), with the `*common_actions` and `*review_actions` splices of the
source written as list appends. -/
def state_actions : State → List String
  | State.all =>
    "" :: common_actions ++
      ["Check Database", "Check Media", "Empty Cards", "Manage Note Types",
       "Study Deck"]
  | State.deckBrowser =>
    "" :: common_actions ++
      ["Check Database", "Check Media", "Collapse/Expand", "Empty Cards",
       "Manage Note Types", "Next Deck", "Next Due Deck", "Previous Deck",
       "Previous Due Deck", "Study Deck"]
  | State.overview =>
    "" :: common_actions ++
      ["Collapse/Expand", "Empty", "Filter", "Next Deck", "Next Due Deck",
       "Previous Deck", "Previous Due Deck", "Rebuild", "Custom Study"]
  | State.review => "" :: common_actions ++ review_actions
  | State.question => "" :: common_actions ++ review_actions
  | State.answer => "" :: common_actions ++ review_actions
  | State.dialog =>
    ["", "Enter", "Fullscreen", "Hide Cursor", "Quit", "Redo", "Undo",
     "Volume Down", "Volume Up", "Click", "Secondary Click", "Select Next",
     "Select Previous", "Select", "Focus Main Window", "Switch Window",
     "Escape", "Up", "Down", "Up by 10", "Down by 10", "Scroll Up",
     "Scroll Down"]

/-- The seven states, in the order of the `states` dictionary of
`config.py`. -/
def allStates : List State :=
  [State.all, State.deckBrowser, State.overview, State.review,
   State.question, State.answer, State.dialog]

/-- The body of the `for state, i, combo in combos_iter` loop of
`ControlsPage.update_inheritance`, applied to each combo box in turn:
the result collects the `combo.setItemText(0, inherited)` effects, and
`none` models a `KeyError` raised by one of the dictionary accesses in
`inheritedText` (in which case the loop aborts). -/
def mapInherited (b : Bindings) :
    List (State × Nat) → Option (List (State × Nat × String))
  | [] => some []
  | p :: rest =>
    match inheritedText b p.1 p.2, mapInherited b rest with
    | some t, some l => some ((p.1, p.2, t) :: l)
    | _, _ => none

/-- `ControlsPage.update_inheritance` (config.py): `combos` is the list
of `(state, index)` pairs that have a combo box; the comprehension
`combos_iter` keeps those whose state is not "all" (its
`if index in state_combos` clause is always true, the keys being
iterated come from the same dictionary), and the loop sets each combo's
item-0 text to the inherited value. -/
def update_inheritance (b : Bindings) (combos : List (State × Nat)) :
    Option (List (State × Nat × String)) :=
  mapInherited b (combos.filter (fun p => !(decide (p.1 = State.all))))

/-- Example bindings: the "question" binding for button 0 is empty, the
"all" layer binds "Undo" and the "review" layer binds "Again". -/
def exB1 : Bindings :=
  [((State.question, 0), ""), ((State.all, 0), "Undo"),
   ((State.review, 0), "Again")]

/-- Example bindings: as `exB1` but with an empty "review" layer
binding. -/
def exB2 : Bindings :=
  [((State.question, 0), ""), ((State.all, 0), "Undo"),
   ((State.review, 0), "")]

/-- Example profile on the "Xbox One" controller with button 16 ("Xbox")
as the modifier and an explicit "review" binding for button 0. -/
def exProfile : Profile :=
  ⟨"Example", xboxOne, [16], [((State.review, 0), "Undo")]⟩

/-! ## Theorems -/

/-- Claim C1: for a "question" or "answer" state whose own binding is
empty, when both the "all" and the "review" layers hold non-empty
bindings for a button, the effective action is the "review" binding —
the review layer is checked after, and overrides, the all layer. -/
theorem c1_review_layer_overrides_all (b : Bindings) (s : State) (i : Nat)
    (hq : s = State.question ∨ s = State.answer)
    (hown : lookupBinding b s i = some "")
    (a : String) (ha : lookupBinding b State.all i = some a) (ha' : a ≠ "")
    (r : String) (hr : lookupBinding b State.review i = some r)
    (hr' : r ≠ "") :
    getEffectiveAction b s i = some (r, true) := by
  have hsall : s ≠ State.all := by
    rcases hq with h | h <;> subst h <;> simp
  simp only [getEffectiveAction, hown, ha, hr]
  simp [hsall, hq, hr']

/-- Witness for C1 on concrete bindings: with `("all", 0) = "Undo"` and
`("review", 0) = "Again"`, the effective action for `("question", 0)` is
`("Again", true)`. -/
theorem c1_witness :
    getEffectiveAction exB1 State.question 0 = some ("Again", true) :=
  c1_review_layer_overrides_all exB1 State.question 0 (Or.inl rfl)
    (by decide) "Undo" (by decide) (by decide) "Again" (by decide)
    (by decide)

/-- Counterexample to claim C2 as stated: for state "question" with an
empty own binding, a non-empty "all" binding "Undo" and a non-empty
"review" binding "Again", the effective action is not the "all" binding
with `inherited = true` — the "review" layer overrides it. -/
theorem c2_counterexample :
    lookupBinding exB1 State.question 0 = some "" ∧
    lookupBinding exB1 State.all 0 = some "Undo" ∧
    ("Undo" : String) ≠ "" ∧
    getEffectiveAction exB1 State.question 0 ≠ some ("Undo", true) := by
  refine ⟨by decide, by decide, by decide, ?_⟩
  decide

/-- Claim C2 (amended): the fallback chain of `getEffectiveAction` — the
own binding is returned verbatim with `inherited = false` when
non-empty; else the non-empty "all" binding is returned with
`inherited = true` **provided** the "review" layer does not intervene
(i.e. the state is not "question"/"answer", or its "review" binding is
empty); and when no layer yields a non-empty action the result is the
empty action with `inherited = false`.  The function is pure: it reads
the bindings table and returns a value, mutating nothing. -/
theorem c2_fallback_chain (b : Bindings) (s : State) (i : Nat)
    (hs : s ≠ State.all) (own : String)
    (h1 : lookupBinding b s i = some own)
    (a : String) (h2 : lookupBinding b State.all i = some a)
    (h3 : s = State.question ∨ s = State.answer →
      lookupBinding b State.review i = some "") :
    getEffectiveAction b s i =
      some (if own ≠ "" then (own, false)
        else if a ≠ "" then (a, true) else ("", false)) := by
  by_cases hown : own = ""
  · subst hown
    by_cases hqa : s = State.question ∨ s = State.answer
    · have hrev := h3 hqa
      simp only [getEffectiveAction, h1, h2, hrev]
      simp [hs, hqa]
    · simp only [getEffectiveAction, h1, h2]
      simp [hs, hqa]
  · simp only [getEffectiveAction, h1]
    simp [hown]

/-- Witness for C2 (amended) on concrete bindings: with an empty own
binding, an empty "review" binding and `("all", 0) = "Undo"`, the
effective action for `("question", 0)` is `("Undo", true)`. -/
theorem c2_witness :
    getEffectiveAction exB2 State.question 0 = some ("Undo", true) := by
  have h := c2_fallback_chain exB2 State.question 0 (by decide) ""
    (by decide) "Undo" (by decide) (fun _ => by decide)
  simpa using h

/-- Counterexample to claim C3 as stated: selecting the inherited entry
("Undo (inherited)", which carries the inherited-display marker) on a
button whose stored "review" binding is "Undo" does **not** clear the
stored binding to the empty string — `ControlsPage.update_binding`
ignores the call and the binding stays "Undo". -/
theorem c3_counterexample :
    strContainsSub "Undo (inherited)" "inherit" = true ∧
    lookupBinding
      (ControlsPage.update_binding exProfile State.review 0
        "Undo (inherited)").bindings State.review 0 ≠ some "" := by
  constructor
  · decide
  · decide

/-- Claim C3 (amended): calling the dialog's binding update with an
action string that carries the inherited-display marker (the substring
"inherit") leaves the profile — and hence the stored binding for that
(state, button) — unchanged; in particular the literal inherited-display
text is never stored as an action name.  (The binding is left as it was,
not cleared to the empty string.) -/
theorem c3_inherited_marker_not_stored (p : Profile) (s : State) (i : Nat)
    (a : String) (h : strContainsSub a "inherit" = true) :
    ControlsPage.update_binding p s i a = p := by
  simp [ControlsPage.update_binding, h]

/-- Witness for C3 (amended): on the concrete profile, the call with
"Undo (inherited)" is a no-op. -/
theorem c3_witness :
    ControlsPage.update_binding exProfile State.review 0
      "Undo (inherited)" = exProfile :=
  c3_inherited_marker_not_stored exProfile State.review 0
    "Undo (inherited)" (by decide)

/-- Claim C4: `ControlsPage.update_binding` forwards the edit to the
profile exactly when "inherit" is not a substring of the action name;
when "inherit" occurs anywhere in the action the call is a no-op and the
profile (so the stored binding) is left unchanged. -/
theorem c4_update_binding_guard (p : Profile) (s : State) (i : Nat)
    (a : String) :
    ControlsPage.update_binding p s i a =
      if strContainsSub a "inherit" then p
      else ContankiConfig.update_binding p s i a := by
  cases h : strContainsSub a "inherit" <;>
    simp [ControlsPage.update_binding, h]

/-- Claim C5: `setBinding` rejects a request to bind a modifier button
(one in `profile.mods`) or an out-of-range button index with
`InvalidBindingError`; no updated profile is produced, so the bindings
are unchanged by the rejected call. -/
theorem c5_invalid_binding_rejected (p : Profile) (s : State) (i : Nat)
    (a : String) (h : i ∈ p.mods ∨ i ∉ buttonIndices p.controller) :
    setBinding p s i a = Except.error BindingErr.invalidBinding := by
  rcases h with h | h
  · simp [setBinding, h]
  · by_cases hm : i ∈ p.mods
    · simp [setBinding, hm]
    · simp [setBinding, hm, h]

/-- Witness for C5: binding button 16 of the example profile (its
modifier button) is rejected. -/
theorem c5_witness :
    setBinding exProfile State.review 16 "Undo" =
      Except.error BindingErr.invalidBinding :=
  c5_invalid_binding_rejected exProfile State.review 16 "Undo"
    (Or.inl (by decide))

/-- Splitting a list by a predicate preserves the total length. -/
theorem filter_length_split (f : Nat → Bool) :
    ∀ l : List Nat,
      (l.filter f).length + (l.filter (fun x => !(f x))).length =
        l.length := by
  intro l
  induction l with
  | nil => rfl
  | cons x xs ih =>
    cases hx : f x <;> simp [List.filter_cons, hx] <;> omega

/-- Counterexample to claim C6 as stated: for the "Wii Remote" (8
buttons) and `mods = [99]` (an index that is not a button of the
controller), `listBindableButtons` keeps all 8 buttons, but the claimed
length `len(buttons) - len(mods)` would be 7. -/
theorem c6_counterexample :
    (listBindableButtons wiiRemote [99]).length ≠
      wiiRemote.buttons.length - ([99] : List Nat).length := by
  decide

/-- Claim C6 (amended): `listBindableButtons` never returns an index in
`mods`; and, provided `mods` is duplicate-free and each of its entries is
a button index of the controller (as the data model requires of a
profile's modifier list, button indices being unique per controller),
its length equals the number of buttons minus the number of entries of
`mods`. -/
theorem c6_bindable_buttons (c : Controller) (mods : List Nat)
    (hnd : (buttonIndices c).Nodup) (hm : mods.Nodup)
    (hsub : ∀ m ∈ mods, m ∈ buttonIndices c) :
    ((listBindableButtons c mods).all
      (fun i => !(decide (i ∈ mods))) = true) ∧
    (listBindableButtons c mods).length =
      c.buttons.length - mods.length := by
  constructor
  · rw [List.all_eq_true]
    intro i hi
    exact (List.mem_filter.mp hi).2
  · have hsplit := filter_length_split (fun i => decide (i ∈ mods))
      (buttonIndices c)
    have hcount :
        ((buttonIndices c).filter (fun i => decide (i ∈ mods))).length =
          mods.length := by
      have hnodup :
          ((buttonIndices c).filter
            (fun i => decide (i ∈ mods))).Nodup := hnd.filter _
      have hset :
          ((buttonIndices c).filter
            (fun i => decide (i ∈ mods))).toFinset = mods.toFinset := by
        ext x
        simp only [List.mem_toFinset, List.mem_filter, decide_eq_true_eq]
        exact ⟨fun h => h.2, fun h => ⟨hsub x h, h⟩⟩
      rw [← List.toFinset_card_of_nodup hnodup,
        ← List.toFinset_card_of_nodup hm, hset]
    have hbl : (buttonIndices c).length = c.buttons.length :=
      List.length_map _ _
    have hgoal :
        (listBindableButtons c mods).length =
          ((buttonIndices c).filter
            (fun x => !(decide (x ∈ mods)))).length := rfl
    omega

/-- Witness for C6 (amended) on the "Xbox One" controller with
`mods = [16]`: 16 bindable buttons remain out of 17, none of them the
modifier. -/
theorem c6_witness :
    ((listBindableButtons xboxOne [16]).all
      (fun i => !(decide (i ∈ ([16] : List Nat)))) = true) ∧
    (listBindableButtons xboxOne [16]).length =
      xboxOne.buttons.length - ([16] : List Nat).length :=
  c6_bindable_buttons xboxOne [16] (by decide) (by decide)
    (by
      intro m hm
      simp only [List.mem_singleton] at hm
      subst hm
      decide)

/-- Claim C7: `describe` returns the registered descriptor when the name
is one of the registry's keys, and fails with `UnknownControllerError`
exactly when the name is not a key.  (`describe` is a pure lookup over
the fixed `controllers` list; it mutates nothing.) -/
theorem c7_describe_registry (name : String) :
    (name ∈ controllers.map Prod.fst ∧
      ∃ c, (name, c) ∈ controllers ∧ describe name = Except.ok c) ∨
    (name ∉ controllers.map Prod.fst ∧
      describe name = Except.error RegErr.unknownController) := by
  cases hf : controllers.find? (fun p => decide (p.1 = name)) with
  | none =>
    right
    refine ⟨?_, ?_⟩
    · intro hmem
      rcases List.mem_map.mp hmem with ⟨p, hp, hp1⟩
      have hnone := List.find?_eq_none.mp hf p hp
      simp [hp1] at hnone
    · unfold describe
      rw [hf]
  | some p =>
    left
    have hp := List.mem_of_find?_eq_some hf
    have hpred := List.find?_some hf
    have hname : p.1 = name := by simpa using hpred
    refine ⟨List.mem_map.mpr ⟨p, hp, hname⟩, p.2, ?_, ?_⟩
    · rw [← hname]
      exact hp
    · unfold describe
      rw [hf]

/-- Claim C8: every controller in the registry has between 8 and 23
buttons, and the "Xbox One" controller has exactly 17 buttons with
contiguous indices 0 through 16. -/
theorem c8_registry_button_counts :
    (controllers.all (fun p =>
      decide (8 ≤ p.2.buttons.length) &&
        decide (p.2.buttons.length ≤ 23))) = true ∧
    describe "Xbox One" = Except.ok xboxOne ∧
    xboxOne.buttons.length = 17 ∧
    xboxOne.buttons.map Prod.fst = List.range 17 :=
  ⟨by decide, by rfl, by decide, by decide⟩

/-- Counterexample to claim C9 as stated: "Focus Main Window" is offered
in `state_actions` for the "dialog" state but is not a key of
`button_actions` (its entry in the source is commented out), so it has
no press handler. -/
theorem c9_counterexample :
    "Focus Main Window" ∈ state_actions State.dialog ∧
    ("Focus Main Window" : String) ≠ "" ∧
    "Focus Main Window" ∉ button_actions := by
  refine ⟨by decide, by decide, by decide⟩

/-- Claim C9 (amended): every action name appearing in any of the
per-state lists of `state_actions`, other than the empty string and the
single stray entry "Focus Main Window", is a key of the `button_actions`
dispatch table. -/
theorem c9_state_actions_have_handlers :
    (allStates.all (fun s => (state_actions s).all
      (fun a => a == "" || a == "Focus Main Window" ||
        button_actions.contains a))) = true := by
  decide

/-- When every element of the list has an inherited text (no dictionary
access fails), the loop over the list succeeds. -/
theorem mapInherited_isSome (b : Bindings) :
    ∀ l : List (State × Nat),
      (∀ p ∈ l, (inheritedText b p.1 p.2).isSome) →
      (mapInherited b l).isSome := by
  intro l
  induction l with
  | nil =>
    intro _
    simp [mapInherited]
  | cons p rest ih =>
    intro h
    have h1 := h p (List.mem_cons_self p rest)
    have h2 := ih (fun q hq => h q (List.mem_cons_of_mem p hq))
    obtain ⟨t, ht⟩ := Option.isSome_iff_exists.mp h1
    obtain ⟨l2, hl⟩ := Option.isSome_iff_exists.mp h2
    simp [mapInherited, ht, hl]

/-- Claim C10: `update_inheritance` indexes `all_bindings[i]` (and, for
"question"/"answer" combos, `review_bindings[i]`) directly; under the
precondition that the bindings table has an `("all", i)` entry for every
combo index `i` of a non-"all" state, and a `("review", i)` entry for
every "question"/"answer" combo index, no lookup fails and the operation
succeeds (the `KeyError` branch of the total embedding is
unreachable). -/
theorem c10_update_inheritance_total (b : Bindings)
    (combos : List (State × Nat))
    (h : ∀ p ∈ combos, p.1 ≠ State.all →
      (lookupBinding b State.all p.2).isSome ∧
      ((p.1 = State.question ∨ p.1 = State.answer) →
        (lookupBinding b State.review p.2).isSome)) :
    (update_inheritance b combos).isSome := by
  unfold update_inheritance
  apply mapInherited_isSome
  intro p hp
  have hmem := List.mem_filter.mp hp
  have hne : p.1 ≠ State.all := by simpa using hmem.2
  obtain ⟨hall, hrev⟩ := h p hmem.1 hne
  obtain ⟨a, ha⟩ := Option.isSome_iff_exists.mp hall
  unfold inheritedText
  rw [ha]
  by_cases hqa : p.1 = State.question ∨ p.1 = State.answer
  · obtain ⟨r, hr⟩ := Option.isSome_iff_exists.mp (hrev hqa)
    simp [hqa, hr]
  · simp [hqa]

/-- Witness for C10 on concrete data: `exB1` has "all" and "review"
entries for button 0, so refreshing combos for the "all", "review" and
"question" tabs succeeds. -/
theorem c10_witness :
    (update_inheritance exB1
      [(State.all, 0), (State.review, 0), (State.question, 0)]).isSome := by
  apply c10_update_inheritance_total
  intro p hp hne
  simp only [List.mem_cons, List.not_mem_nil, or_false] at hp
  rcases hp with rfl | rfl | rfl
  · exact absurd rfl hne
  · exact ⟨by decide, fun _ => by decide⟩
  · exact ⟨by decide, fun _ => by decide⟩

end Contanki
